import Mathlib

/-!
Verification of the revops-calendar-app approval-and-scheduling engine.

The definitions below are a shallow embedding of the API handlers in
`src/pages/api/calendar/index.js`, `src/pages/api/calendar/[id]/generate.js`,
the batch-approval endpoint and the per-entry PATCH/DELETE endpoint.
Supabase row updates are modelled as pure functions on a store
(`List Entry`); a filtered update (`.eq` / `.in`) becomes a per-row
function applied with `List.map`.  JavaScript numbers are modelled as
rationals, `Math.round` as floor of `x + 1/2` (JS rounds half toward
positive infinity), calendar dates and timestamps as integers, and the
JS falsy test (`!x`, `x || d`) on nullable numbers and strings is made
explicit (`none` and `0` / `""` are falsy).
-/

namespace RevOps

/-- Lifecycle states of a calendar entry (spec section 3). -/
inductive Status where
  | suggested
  | approved
  | scheduled
  | generating
  | in_progress
  | published
  | failed
  | rejected
deriving DecidableEq, Repr

/-- A row of the `content_calendar` table, restricted to the fields the
verified operations read or write. -/
structure Entry where
  id : Nat
  keyword : String
  article_type : String
  status : Status
  search_volume : Option ℚ
  difficulty : Option ℚ
  competitor_count : Option ℚ
  priority_score : Option Int
  planned_date : Option Int
  approved_at : Option Int
  approved_by : Option String
  decline_reason : Option String
  generation_started_at : Option Int
deriving DecidableEq, Repr

/-- JS truthiness of a nullable number: `null` and `0` are falsy. -/
def jsTruthyQ : Option ℚ → Bool
  | none => false
  | some q => decide (q ≠ 0)

/-- JS truthiness of a nullable string: `null` and `""` are falsy. -/
def jsTruthyStr : Option String → Bool
  | none => false
  | some s => decide (s ≠ "")

/-- `Math.round`: round half toward positive infinity. -/
def jsRound (x : ℚ) : Int := Int.floor (x + 1/2)

/-- `calculateOpportunityScore` from `src/pages/api/calendar/index.js`
(lines 217-241).  `!volume || !difficulty` guards the division; the
competitor comparison `competitorCount <= 3` coerces `null` to `0` as JS
does; the result is `Math.round(Math.min(score, 100))`. -/
def calculateOpportunityScore (volume difficulty competitorCount : Option ℚ) : Int :=
  if !(jsTruthyQ volume) || !(jsTruthyQ difficulty) then 0
  else
    let v := volume.getD 0
    let d := difficulty.getD 0
    let c := competitorCount.getD 0
    let base := v / max d 1 * 10
    let s1 := if c ≤ 3 then base * (3 / 2) else if c ≤ 5 then base * (6 / 5) else base
    let s2 := if 30 ≤ d ∧ d ≤ 50 then s1 * (13 / 10) else s1
    let s3 := if 70 < d then s2 * (1 / 2) else s2
    jsRound (min s3 100)

/-- `getDifficultyLabel` from the batch-approval endpoint (lines
236-242): `if (!difficulty) return 'Unknown'` treats both `null` and
`0` as missing. -/
def getDifficultyLabel (difficulty : Option ℚ) : String :=
  if !(jsTruthyQ difficulty) then "Unknown"
  else if difficulty.getD 0 < 30 then "Easy"
  else if difficulty.getD 0 < 50 then "Medium"
  else if difficulty.getD 0 < 70 then "Hard"
  else "Very Hard"

/-! ## Lifecycle transitions (PATCH actions, `src/pages/api/calendar/[id]` handler)

Each Supabase update `update(fields).eq('id', id).in('status', S)` is
modelled as a per-row function that rewrites a row exactly when both the
id filter and the status filter match, applied to the whole store with
`List.map`.  The row's status at the moment the write is applied is the
write-time status, so the presence or absence of the status filter is
precisely what decides whether a concurrent status change can be
overwritten. -/

/-- `approveEntry` (PATCH handler, lines 221-232): conditional update
guarded by `.in('status', ['suggested', 'rejected'])`. -/
def approveRow (id : Nat) (approver : String) (now : Int) (e : Entry) : Entry :=
  if e.id = id ∧ (e.status = .suggested ∨ e.status = .rejected) then
    { e with status := .approved, approved_at := some now, approved_by := some approver }
  else e

def approveWrite (store : List Entry) (id : Nat) (approver : String) (now : Int) : List Entry :=
  store.map (approveRow id approver now)

/-- `rejectEntry` (PATCH handler, lines 261-279): conditional update
guarded by `.in('status', ['suggested', 'approved'])`; `decline_reason`
is included in the update object only when the given reason is truthy. -/
def rejectRow (id : Nat) (reason : Option String) (e : Entry) : Entry :=
  if e.id = id ∧ (e.status = .suggested ∨ e.status = .approved) then
    { e with status := .rejected, approved_at := none, approved_by := none,
             decline_reason := if jsTruthyStr reason then reason else e.decline_reason }
  else e

def rejectWrite (store : List Entry) (id : Nat) (reason : Option String) : List Entry :=
  store.map (rejectRow id reason)

/-- `rescheduleEntry` (PATCH handler, lines 308-328): conditional update
guarded by `.in('status', ['approved', 'scheduled'])`. -/
def rescheduleRow (id : Nat) (plannedDate : Int) (e : Entry) : Entry :=
  if e.id = id ∧ (e.status = .approved ∨ e.status = .scheduled) then
    { e with planned_date := some plannedDate, status := .scheduled }
  else e

def rescheduleWrite (store : List Entry) (id : Nat) (plannedDate : Int) : List Entry :=
  store.map (rescheduleRow id plannedDate)

/-- The bulk approval update of the batch endpoint (lines 46-55):
`.in('id', ids).in('status', ['suggested', 'rejected'])`. -/
def bulkApproveRow (ids : List Nat) (approver : String) (now : Int) (e : Entry) : Entry :=
  if e.id ∈ ids ∧ (e.status = .suggested ∨ e.status = .rejected) then
    { e with status := .approved, approved_at := some now, approved_by := some approver }
  else e

def bulkApproveWrite (store : List Entry) (ids : List Nat) (approver : String) (now : Int) :
    List Entry :=
  store.map (bulkApproveRow ids approver now)

/-- The per-entry scheduling write of the batch auto-scheduler (batch
endpoint, lines 97-111): `update({planned_date, status:
'scheduled'}).eq('id', update.id)` — filtered by id only, with no
status condition. -/
def scheduleRow (id : Nat) (date : Int) (e : Entry) : Entry :=
  if e.id = id then { e with planned_date := some date, status := .scheduled } else e

def scheduleWrite (store : List Entry) (id : Nat) (date : Int) : List Entry :=
  store.map (scheduleRow id date)

/-- The dispatch status write of `[id]/generate.js` (lines 67-74):
`update({status: 'generating', generation_started_at}).eq('id', id)` —
filtered by id only, with no status condition. -/
def dispatchRow (id : Nat) (now : Int) (e : Entry) : Entry :=
  if e.id = id then { e with status := .generating, generation_started_at := some now } else e

def dispatchWrite (store : List Entry) (id : Nat) (now : Int) : List Entry :=
  store.map (dispatchRow id now)

/-! ## Batch auto-scheduler (batch endpoint, lines 64-111) -/

/-- `(x.priority_score || 0)` — the sort key; a null score counts as 0. -/
def jsScore (e : Entry) : Int := e.priority_score.getD 0

/-- The descending-score order used by the comparator
`(a, b) => (b.priority_score || 0) - (a.priority_score || 0)`:
`a` may be placed before `b` exactly when `jsScore b ≤ jsScore a`. -/
def scoreGe (a b : Entry) : Prop := jsScore b ≤ jsScore a

instance : DecidableRel scoreGe :=
  fun a b => inferInstanceAs (Decidable (jsScore b ≤ jsScore a))

instance : IsTotal Entry scoreGe :=
  ⟨fun a b => le_total (jsScore b) (jsScore a)⟩

instance : IsTrans Entry scoreGe :=
  ⟨fun _ _ _ h1 h2 => le_trans h2 h1⟩

/-- The JS `sort((a, b) => (b.priority_score || 0) - (a.priority_score || 0))`.
`Array.prototype.sort` is a stable sort; a stable sort by descending
score is insertion sort with the order `scoreGe`. -/
def sortByScoreDesc (l : List Entry) : List Entry :=
  List.insertionSort scoreGe l

/-- The date-assignment loop (lines 77-94): emit `(id, currentDate)`,
increment `dailyCount`, and when `dailyCount >= perDay` advance
`currentDate` one calendar day and reset `dailyCount` to 0. -/
def assignLoop : List Entry → Int → Nat → Nat → List (Nat × Int)
  | [], _, _, _ => []
  | e :: rest, currentDate, perDay, dailyCount =>
    (e.id, currentDate) ::
      (if perDay ≤ dailyCount + 1 then assignLoop rest (currentDate + 1) perDay 0
       else assignLoop rest currentDate perDay (dailyCount + 1))

/-- The scheduled updates computed by the auto-scheduler: sort the
approved entries by descending priority score, then walk them assigning
dates `perDay` at a time starting from `startDate`. -/
def autoScheduleAssignments (approved : List Entry) (startDate : Int) (perDay : Nat) :
    List (Nat × Int) :=
  assignLoop (sortByScoreDesc approved) startDate perDay 0

/-! ## Generate-now endpoint (`src/pages/api/calendar/[id]/generate.js`) -/

/-- The responses the generate endpoint can produce after the entry has
been fetched.  `invalidTransition s` is the 400 response "Cannot
generate article with status s. Must be suggested, approved, or
scheduled." (lines 46-54); `alreadyGenerating` is the 400 response
"Article is already being generated" (lines 57-65); `ok` is the 200
success response. -/
inductive GenResponse where
  | invalidTransition (s : Status)
  | alreadyGenerating
  | ok (keyword : String)
deriving DecidableEq, Repr

/-- Observable side effects of the generate endpoint, in program order:
the store write that commits `status = 'generating'`, and the external
`repository_dispatch` call with its outcome. -/
inductive DispatchEvent where
  | statusWrite (newStatus : Status) (startedAt : Int)
  | externalTrigger (keyword : String) (ok : Bool)
deriving DecidableEq, Repr

/-- The POST handler of `[id]/generate.js` after the fetch, lines
45-136: first the membership guard on `{suggested, approved,
scheduled}`, then the `status === 'generating'` check, then the status
update, then (when a token is configured) the external trigger whose
failure is caught locally (lines 115-119) without touching the response
or the committed status. Returns (response, resulting entry, event
trace). -/
def generatePOST (e : Entry) (now : Int) (hasToken : Bool) (triggerOk : Bool) :
    GenResponse × Entry × List DispatchEvent :=
  if ¬(e.status = .suggested ∨ e.status = .approved ∨ e.status = .scheduled) then
    (.invalidTransition e.status, e, [])
  else if e.status = .generating then
    (.alreadyGenerating, e, [])
  else
    (.ok e.keyword,
     { e with status := .generating, generation_started_at := some now },
     DispatchEvent.statusWrite .generating now ::
       (if hasToken then [DispatchEvent.externalTrigger e.keyword triggerOk] else []))

/-! ## Stats endpoint (stats GET handler) -/

/-- The result shape of the stats endpoint: one count per queried
status plus today's scheduled entry. -/
structure CalendarStats where
  suggested : Nat
  approved : Nat
  scheduled : Nat
  published : Nat
  todayScheduled : Option Entry
deriving DecidableEq, Repr

/-- The statuses for which the stats handler issues a count query
(the four parallel head-count queries). -/
def statsCountedStatuses : List Status :=
  [.suggested, .approved, .scheduled, .published]

/-- Supabase `.gte('planned_date', t)`: a SQL comparison, false on NULL. -/
def sqlGe (x : Option Int) (t : Int) : Bool :=
  match x with
  | none => false
  | some d => decide (t ≤ d)

/-- Supabase `.lte('planned_date', t)`: a SQL comparison, false on NULL. -/
def sqlLe (x : Option Int) (t : Int) : Bool :=
  match x with
  | none => false
  | some d => decide (d ≤ t)

/-- The stats GET handler: four status head-counts plus the
`todayScheduled` query (`status = 'scheduled'`, `planned_date` between
today and today, `limit(1)`, `data?.[0] || null`). -/
def getStats (store : List Entry) (today : Int) : CalendarStats :=
  { suggested := (store.filter (fun e => decide (e.status = .suggested))).length
    approved := (store.filter (fun e => decide (e.status = .approved))).length
    scheduled := (store.filter (fun e => decide (e.status = .scheduled))).length
    published := (store.filter (fun e => decide (e.status = .published))).length
    todayScheduled :=
      ((store.filter (fun e =>
          decide (e.status = .scheduled) && sqlGe e.planned_date today
            && sqlLe e.planned_date today)).take 1).head? }

/-- Number of entries of the store holding a given status. -/
def countStatus (store : List Entry) (s : Status) : Nat :=
  (store.filter (fun e => decide (e.status = s))).length

/-! ## Create endpoint (`index.js` POST, lines 132-212) -/

/-- The request body of the create endpoint (fields read by the
handler). -/
structure CreateBody where
  keyword : String
  article_type : Option String
  planned_date : Option String
  search_volume : Option ℚ
  difficulty : Option ℚ
  status : Option String
  notes : Option String
  brief_content : Option String
  seo_insights : Option String
deriving DecidableEq, Repr

/-- JS `x || d` on a nullable string: the default replaces `null` and
`""`. -/
def strOr (x : Option String) (d : String) : String :=
  match x with
  | none => d
  | some s => if s = "" then d else s

/-- JS `x || null` on a nullable string. -/
def strOrNull (x : Option String) : Option String :=
  match x with
  | none => none
  | some s => if s = "" then none else s

/-- JS `x || d` on a nullable number: the default replaces `null` and
`0`. -/
def qOr (x : Option ℚ) (d : ℚ) : ℚ :=
  match x with
  | none => d
  | some q => if q = 0 then d else q

/-- JS `x || null` on a nullable number. -/
def qOrNull (x : Option ℚ) : Option ℚ :=
  match x with
  | none => none
  | some q => if q = 0 then none else q

/-- The object passed to `.insert(...)` by the create handler (lines
172-187). -/
structure InsertFields where
  keyword : String
  article_type : String
  planned_date : Option String
  search_volume : Option ℚ
  difficulty : Option ℚ
  status : String
  priority_score : Int
  notes : Option String
  brief_content : Option String
  seo_insights : Option String
deriving DecidableEq, Repr

/-- The insert object built by the create handler: every field is
defaulted with JS `||`, in particular `status: body.status ||
'suggested'`, and `priority_score` is computed with
`calculateOpportunityScore(body.search_volume || 0, body.difficulty ||
50, 0)` (lines 164-187). -/
def buildInsertFields (body : CreateBody) : InsertFields :=
  { keyword := body.keyword
    article_type := strOr body.article_type "guide"
    planned_date := strOrNull body.planned_date
    search_volume := qOrNull body.search_volume
    difficulty := qOrNull body.difficulty
    status := strOr body.status "suggested"
    priority_score :=
      calculateOpportunityScore (some (qOr body.search_volume 0))
        (some (qOr body.difficulty 50)) (some 0)
    notes := strOrNull body.notes
    brief_content := strOrNull body.brief_content
    seo_insights := strOrNull body.seo_insights }

/-! ## Delete endpoint (per-entry handler, lines 159-216) -/

/-- Responses of the DELETE handler: `immutable` is the 400 "Cannot
delete published articles" response, `notFound` the 404 branch (only
reachable from a delete-time `PGRST116` error, which a filtered delete
matching zero rows does not produce), `success` the 200 response. -/
inductive DeleteResult where
  | immutable
  | notFound
  | success (message : String)
deriving DecidableEq, Repr

/-- The DELETE handler: look the entry up by id discarding the lookup
error (`const { data: entry } = ...`), refuse only when the looked-up
entry exists and is `published` (`entry?.status === 'published'`),
otherwise issue the filtered delete and report success. -/
def deleteEntry (store : List Entry) (id : Nat) : DeleteResult × List Entry :=
  match (store.filter (fun e => decide (e.id = id))).head? with
  | some entry =>
    if entry.status = .published then (.immutable, store)
    else (.success "Calendar entry deleted successfully",
          store.filter (fun e => decide (¬ e.id = id)))
  | none => (.success "Calendar entry deleted successfully",
             store.filter (fun e => decide (¬ e.id = id)))

/-! ## Concrete fixtures used by counterexamples and witnesses -/

/-- A minimal concrete entry with a given id, status and priority
score; all metric and audit fields empty. -/
def sampleEntry (i : Nat) (s : Status) (ps : Option Int) : Entry :=
  { id := i
    keyword := "kw" ++ toString i
    article_type := "guide"
    status := s
    search_volume := none
    difficulty := none
    competitor_count := none
    priority_score := ps
    planned_date := none
    approved_at := none
    approved_by := none
    decline_reason := none
    generation_started_at := none }

/-- A minimal concrete create-request body. -/
def sampleCreateBody (st : Option String) : CreateBody :=
  { keyword := "kw"
    article_type := none
    planned_date := none
    search_volume := none
    difficulty := none
    status := st
    notes := none
    brief_content := none
    seo_insights := none }

/-! ## Helper lemmas -/

theorem assignLoop_length (l : List Entry) (c : Int) (p k : Nat) :
    (assignLoop l c p k).length = l.length := by
  induction l generalizing c k with
  | nil => rfl
  | cons e rest ih =>
    simp only [assignLoop, List.length_cons]
    split <;> rw [ih]

/-- The date-assignment loop gives the `i`-th entry of its input the
date `c + (k + i) / p`, provided the running daily count `k` is still
below `p`. -/
theorem assignLoop_getElem (l : List Entry) (c : Int) (p k : Nat) (hp : 0 < p) (hk : k < p)
    (i : Nat) :
    (assignLoop l c p k)[i]? = (l[i]?).map (fun e => (e.id, c + (((k + i) / p : Nat) : Int))) := by
  induction l generalizing c k i with
  | nil => simp [assignLoop]
  | cons e rest ih =>
    cases i with
    | zero =>
      simp only [assignLoop, List.getElem?_cons_zero, Option.map_some]
      rw [Nat.add_zero, Nat.div_eq_of_lt hk]
      simp
    | succ i =>
      simp only [assignLoop, List.getElem?_cons_succ]
      by_cases hbr : p ≤ k + 1
      · have hkp : k + 1 = p := le_antisymm hk hbr
        rw [if_pos hbr, ih (c + 1) 0 hp i]
        have harith : (k + (i + 1)) / p = i / p + 1 := by
          have hpi : k + (i + 1) = p + i := by omega
          rw [hpi, Nat.add_div_left i hp]
        rw [harith]
        cases rest[i]? with
        | none => rfl
        | some e2 =>
          simp only [Option.map_some']
          congr 1
          push_cast
          ring_nf
      · have hk1 : k + 1 < p := lt_of_not_le hbr
        rw [if_neg hbr, ih c (k + 1) hk1 i]
        have harith : k + 1 + i = k + (i + 1) := by omega
        rw [harith]

/-- Inserting an entry whose score is `s` into any list puts it in
front of the other score-`s` entries: the elements skipped by
`orderedInsert` all have a strictly greater score. -/
theorem filter_orderedInsert_of_eq (s : Int) (a : Entry) (ha : jsScore a = s) (l : List Entry) :
    (List.orderedInsert scoreGe a l).filter (fun e => decide (jsScore e = s))
      = a :: l.filter (fun e => decide (jsScore e = s)) := by
  induction l with
  | nil => simp [List.orderedInsert, ha]
  | cons b t ih =>
    simp only [List.orderedInsert]
    by_cases h : scoreGe a b
    · rw [if_pos h]
      simp [List.filter_cons, ha]
    · rw [if_neg h]
      have hb : ¬(jsScore b = s) := by
        unfold scoreGe at h
        omega
      simp only [List.filter_cons, decide_eq_true_eq, hb, if_false]
      exact ih

/-- Inserting an entry whose score is not `s` does not disturb the
subsequence of score-`s` entries. -/
theorem filter_orderedInsert_of_ne (s : Int) (a : Entry) (ha : ¬(jsScore a = s)) (l : List Entry) :
    (List.orderedInsert scoreGe a l).filter (fun e => decide (jsScore e = s))
      = l.filter (fun e => decide (jsScore e = s)) := by
  induction l with
  | nil => simp [List.orderedInsert, ha]
  | cons b t ih =>
    simp only [List.orderedInsert]
    by_cases h : scoreGe a b
    · rw [if_pos h]
      simp [List.filter_cons, ha]
    · rw [if_neg h]
      by_cases hb : jsScore b = s
      · simp [List.filter_cons, hb, ih]
      · simp [List.filter_cons, hb, ih]

/-- Stability of the sort: within each priority-score class the input
order is preserved. -/
theorem sortByScoreDesc_stable (entries : List Entry) (s : Int) :
    (sortByScoreDesc entries).filter (fun e => decide (jsScore e = s))
      = entries.filter (fun e => decide (jsScore e = s)) := by
  induction entries with
  | nil => rfl
  | cons a t ih =>
    simp only [sortByScoreDesc, List.insertionSort] at *
    by_cases ha : jsScore a = s
    · rw [filter_orderedInsert_of_eq s a ha, ih]
      simp [List.filter_cons, ha]
    · rw [filter_orderedInsert_of_ne s a ha, ih]
      simp [List.filter_cons, ha]

theorem sortByScoreDesc_sorted (entries : List Entry) :
    List.Sorted scoreGe (sortByScoreDesc entries) :=
  List.sorted_insertionSort scoreGe entries

theorem sortByScoreDesc_perm (entries : List Entry) :
    (sortByScoreDesc entries).Perm entries :=
  List.perm_insertionSort scoreGe entries

theorem jsRound_nonneg {x : ℚ} (h : 0 ≤ x) : 0 ≤ jsRound x := by
  unfold jsRound
  exact Int.le_floor.mpr (by push_cast; linarith)

theorem jsRound_le_100 {x : ℚ} (h : x ≤ 100) : jsRound x ≤ 100 := by
  unfold jsRound
  have h1 : Int.floor (x + 1/2) ≤ Int.floor ((201 : ℚ)/2) := Int.floor_le_floor (by linarith)
  have h2 : Int.floor ((201 : ℚ)/2) = 100 := by norm_num
  omega

theorem scoreRoundBounds {x : ℚ} (hx : 0 ≤ x) :
    0 ≤ jsRound (min x 100) ∧ jsRound (min x 100) ≤ 100 :=
  ⟨jsRound_nonneg (le_min hx (by norm_num)), jsRound_le_100 (min_le_right _ _)⟩

theorem take_one_head (l : List Entry) : (l.take 1).head? = l.head? := by
  cases l <;> simp

/-! ## Claim C1 -/

/-- Claim C1, counterexample.  The claim says every status-changing
write — including each per-entry scheduling write of the batch
auto-scheduler and the dispatch-to-generating write — persists only if
the write-time status still lies in the transition's precondition set.
The per-entry scheduling write and the dispatch write carry no status
filter: applied to an entry whose write-time status is `rejected`
(outside `{approved, scheduled}` resp. `{suggested, approved,
scheduled}`, e.g. because a concurrent writer rejected it between the
read and the write), both still persist and overwrite the concurrent
status change. -/
theorem c1_counterexample :
    (scheduleWrite [sampleEntry 1 .rejected none] 1 5).map Entry.status = [Status.scheduled]
    ∧ (dispatchWrite [sampleEntry 2 .rejected none] 2 7).map Entry.status = [Status.generating]
    ∧ (sampleEntry 1 .rejected none).status = .rejected
    ∧ (sampleEntry 2 .rejected none).status = .rejected := by
  refine ⟨?_, ?_, rfl, rfl⟩ <;> decide

/-- Claim C1, amended.  The approve, reject, reschedule and
bulk-approve writes are compare-and-swap updates: they leave an entry
untouched whenever its write-time status lies outside the transition's
precondition set, and rewrite it when id and precondition match.  The
per-entry scheduling write and the dispatch status write, by contrast,
are unconditional id-filtered updates: they rewrite the matching entry
regardless of its write-time status. -/
theorem c1_conditional_writes (e : Entry) (id : Nat) (ids : List Nat) (approver : String)
    (now : Int) (reason : Option String) (date : Int) :
    (¬(e.status = .suggested ∨ e.status = .rejected) → approveRow id approver now e = e)
    ∧ (¬(e.status = .suggested ∨ e.status = .approved) → rejectRow id reason e = e)
    ∧ (¬(e.status = .approved ∨ e.status = .scheduled) → rescheduleRow id date e = e)
    ∧ (¬(e.status = .suggested ∨ e.status = .rejected) → bulkApproveRow ids approver now e = e)
    ∧ (e.id = id → (e.status = .suggested ∨ e.status = .rejected) →
        approveRow id approver now e
          = { e with status := .approved, approved_at := some now, approved_by := some approver })
    ∧ (e.id = id →
        scheduleRow id date e = { e with planned_date := some date, status := .scheduled })
    ∧ (e.id = id →
        dispatchRow id now e
          = { e with status := .generating, generation_started_at := some now }) := by
  refine ⟨?_, ?_, ?_, ?_, ?_, ?_, ?_⟩
  · intro h
    rw [approveRow, if_neg (by tauto)]
  · intro h
    rw [rejectRow, if_neg (by tauto)]
  · intro h
    rw [rescheduleRow, if_neg (by tauto)]
  · intro h
    rw [bulkApproveRow, if_neg (by tauto)]
  · intro h1 h2
    rw [approveRow, if_pos ⟨h1, h2⟩]
  · intro h1
    rw [scheduleRow, if_pos h1]
  · intro h1
    rw [dispatchRow, if_pos h1]

/-- Witness for C1's amended theorem at a concrete `generating` entry. -/
theorem c1_conditional_writes_witness :
    approveRow 1 "a" 0 (sampleEntry 1 .generating none) = sampleEntry 1 .generating none
    ∧ rejectRow 1 none (sampleEntry 1 .generating none) = sampleEntry 1 .generating none
    ∧ rescheduleRow 1 5 (sampleEntry 1 .generating none) = sampleEntry 1 .generating none
    ∧ scheduleRow 1 5 (sampleEntry 1 .generating none)
        = { sampleEntry 1 .generating none with planned_date := some 5, status := .scheduled } :=
  ⟨(c1_conditional_writes (sampleEntry 1 .generating none) 1 [] "a" 0 none 5).1 (by decide),
   (c1_conditional_writes (sampleEntry 1 .generating none) 1 [] "a" 0 none 5).2.1 (by decide),
   (c1_conditional_writes (sampleEntry 1 .generating none) 1 [] "a" 0 none 5).2.2.1 (by decide),
   (c1_conditional_writes (sampleEntry 1 .generating none) 1 [] "a" 0 none 5).2.2.2.2.2.1
     (by decide)⟩

/-! ## Claim C2 -/

/-- Claim C2: the auto-scheduler sorts the approved entries by
priority score descending (null score treated as 0 via `jsScore`, ties
kept in stable input order), and the `i`-th entry of the sorted order
receives the date `startDate + i / perDay` calendar days; in
particular scores `[90, 10, 50]` with `perDay = 1` receive `D, D+1,
D+2` in the order `90, 50, 10`, and scores `[40, 30, 20, 10]` with
`perDay = 2` receive `[D, D, D+1, D+1]` in descending-score order. -/
theorem c2_auto_scheduler (entries : List Entry) (D : Int) (p : Nat) (hp : 1 ≤ p) :
    (∀ (i : Nat) (e : Entry), (sortByScoreDesc entries)[i]? = some e →
        (autoScheduleAssignments entries D p)[i]? = some (e.id, D + ((i / p : Nat) : Int)))
    ∧ List.Sorted scoreGe (sortByScoreDesc entries)
    ∧ (sortByScoreDesc entries).Perm entries
    ∧ (∀ s : Int, (sortByScoreDesc entries).filter (fun e => decide (jsScore e = s))
        = entries.filter (fun e => decide (jsScore e = s)))
    ∧ autoScheduleAssignments
        [sampleEntry 1 .approved (some 90), sampleEntry 2 .approved (some 10),
         sampleEntry 3 .approved (some 50)] D 1
      = [(1, D), (3, D + 1), (2, D + 2)]
    ∧ autoScheduleAssignments
        [sampleEntry 1 .approved (some 40), sampleEntry 2 .approved (some 30),
         sampleEntry 3 .approved (some 20), sampleEntry 4 .approved (some 10)] D 2
      = [(1, D), (2, D), (3, D + 1), (4, D + 1)] := by
  refine ⟨?_, sortByScoreDesc_sorted entries, sortByScoreDesc_perm entries,
    sortByScoreDesc_stable entries, ?_, ?_⟩
  · intro i e he
    unfold autoScheduleAssignments
    rw [assignLoop_getElem _ D p 0 hp hp i, he]
    simp
  · have hs1 : sortByScoreDesc
        [sampleEntry 1 .approved (some 90), sampleEntry 2 .approved (some 10),
         sampleEntry 3 .approved (some 50)]
        = [sampleEntry 1 .approved (some 90), sampleEntry 3 .approved (some 50),
           sampleEntry 2 .approved (some 10)] := by decide
    unfold autoScheduleAssignments
    rw [hs1]
    simp [assignLoop, sampleEntry]
    try omega
  · have hs2 : sortByScoreDesc
        [sampleEntry 1 .approved (some 40), sampleEntry 2 .approved (some 30),
         sampleEntry 3 .approved (some 20), sampleEntry 4 .approved (some 10)]
        = [sampleEntry 1 .approved (some 40), sampleEntry 2 .approved (some 30),
           sampleEntry 3 .approved (some 20), sampleEntry 4 .approved (some 10)] := by decide
    unfold autoScheduleAssignments
    rw [hs2]
    simp [assignLoop, sampleEntry]
    try omega

/-- Witness for C2 at `startDate = 0`, `perDay = 1`. -/
theorem c2_auto_scheduler_witness :
    autoScheduleAssignments
        [sampleEntry 1 .approved (some 90), sampleEntry 2 .approved (some 10),
         sampleEntry 3 .approved (some 50)] 0 1
      = [(1, 0), (3, 1), (2, 2)] := by
  have h := c2_auto_scheduler
    [sampleEntry 1 .approved (some 90), sampleEntry 2 .approved (some 10),
     sampleEntry 3 .approved (some 50)] 0 1 (by decide)
  simpa using h.2.2.2.2.1

/-! ## Claim C3 -/

/-- Claim C3, counterexample.  The claim says the opportunity score is
in `[0, 100]` for every input triple, but a negative volume yields a
negative score: `score(-10, 10, 10) = -10`. -/
theorem c3_counterexample :
    calculateOpportunityScore (some (-10)) (some 10) (some 10) = -10
    ∧ calculateOpportunityScore (some (-10)) (some 10) (some 10) < 0 := by
  constructor
  · unfold calculateOpportunityScore jsTruthyQ jsRound
    norm_num
  · unfold calculateOpportunityScore jsTruthyQ jsRound
    norm_num

/-- Claim C3, amended.  For every input triple whose volume is not
negative, the opportunity score is an integer in `[0, 100]`; and the
score is 0 whenever volume or difficulty is null or zero (the guard
protecting the division). -/
theorem c3_score_bounds (v d c : Option ℚ) (hv : ∀ q, v = some q → 0 ≤ q) :
    (0 ≤ calculateOpportunityScore v d c ∧ calculateOpportunityScore v d c ≤ 100)
    ∧ calculateOpportunityScore none d c = 0
    ∧ calculateOpportunityScore v none c = 0
    ∧ calculateOpportunityScore (some 0) d c = 0
    ∧ calculateOpportunityScore v (some 0) c = 0 := by
  refine ⟨?_, by simp [calculateOpportunityScore, jsTruthyQ], ?_, ?_, ?_⟩
  · dsimp only [calculateOpportunityScore]
    by_cases hguard : (!(jsTruthyQ v) || !(jsTruthyQ d)) = true
    · rw [if_pos hguard]
      norm_num
    · rw [if_neg hguard]
      have hv0 : 0 ≤ v.getD 0 := by
        cases v with
        | none => simp
        | some q => simpa using hv q rfl
      have hmax : (0 : ℚ) ≤ max (d.getD 0) 1 := le_trans (by norm_num) (le_max_right _ _)
      have hbase : 0 ≤ v.getD 0 / max (d.getD 0) 1 * 10 :=
        mul_nonneg (div_nonneg hv0 hmax) (by norm_num)
      split_ifs <;>
        refine scoreRoundBounds ?_ <;>
        first
          | exact hbase
          | exact mul_nonneg hbase (by norm_num)
          | exact mul_nonneg (mul_nonneg hbase (by norm_num)) (by norm_num)
          | exact mul_nonneg (mul_nonneg (mul_nonneg hbase (by norm_num)) (by norm_num))
              (by norm_num)
  · cases v with
    | none => simp [calculateOpportunityScore, jsTruthyQ]
    | some q => simp [calculateOpportunityScore, jsTruthyQ]
  · simp [calculateOpportunityScore, jsTruthyQ]
  · cases v with
    | none => simp [calculateOpportunityScore, jsTruthyQ]
    | some q => simp [calculateOpportunityScore, jsTruthyQ]

/-- Witness for C3's amended theorem at concrete inputs. -/
theorem c3_score_bounds_witness :
    (0 ≤ calculateOpportunityScore (some 200) (some 40) (some 2)
      ∧ calculateOpportunityScore (some 200) (some 40) (some 2) ≤ 100)
    ∧ calculateOpportunityScore none (some 40) (some 2) = 0 := by
  have h1 := c3_score_bounds (some 200) (some 40) (some 2)
    (fun q hq => by injection hq with h2; rw [← h2]; norm_num)
  have h2 := c3_score_bounds none (some 40) (some 2) (fun q hq => nomatch hq)
  exact ⟨h1.1, h2.2.1⟩

/-! ## Claim C4 -/

/-- Claim C4 (code bug).  An entry whose status is `generating` does
not receive the `AlreadyGenerating` error: the earlier membership guard
(`!['suggested','approved','scheduled'].includes(status)`) already
matches `generating` and returns the generic invalid-transition
response, so the dedicated `status === 'generating'` check is dead
code — no execution of the handler ever produces `alreadyGenerating`.
The remainder of the claim does hold at the failing input: no store
write is performed and no external call is made. -/
theorem c4_generating_response :
    (generatePOST (sampleEntry 1 .generating none) 0 true true).1
        = .invalidTransition .generating
    ∧ (generatePOST (sampleEntry 1 .generating none) 0 true true).1 ≠ .alreadyGenerating
    ∧ (generatePOST (sampleEntry 1 .generating none) 0 true true).2.1
        = sampleEntry 1 .generating none
    ∧ (generatePOST (sampleEntry 1 .generating none) 0 true true).2.2 = []
    ∧ (∀ (e : Entry) (now : Int) (tok ok : Bool),
        (generatePOST e now tok ok).1 ≠ .alreadyGenerating) := by
  refine ⟨by decide, by decide, by decide, by decide, ?_⟩
  intro e now tok ok
  unfold generatePOST
  rcases hs : e.status <;> simp [hs]

/-! ## Claim C5 -/

/-- Claim C5: for an entry in `{suggested, approved, scheduled}` the
dispatcher commits `status = generating` with `generation_started_at =
now` as its first side effect, before the external trigger; an
external-trigger failure is caught locally — the response and the
committed entry are identical whether the trigger succeeds or fails,
and the status is never reverted. -/
theorem c5_commit_before_trigger (e : Entry) (now : Int) (tok ok : Bool)
    (h : e.status = .suggested ∨ e.status = .approved ∨ e.status = .scheduled) :
    (generatePOST e now tok ok).2.1.status = .generating
    ∧ (generatePOST e now tok ok).2.1.generation_started_at = some now
    ∧ (generatePOST e now tok ok).2.2.head? = some (.statusWrite .generating now)
    ∧ (tok = true → (generatePOST e now tok ok).2.2
        = [.statusWrite .generating now, .externalTrigger e.keyword ok])
    ∧ (generatePOST e now tok ok).1 = .ok e.keyword
    ∧ (generatePOST e now tok false).1 = (generatePOST e now tok true).1
    ∧ (generatePOST e now tok false).2.1 = (generatePOST e now tok true).2.1 := by
  rcases h with h | h | h <;>
    exact ⟨by simp [generatePOST, h], by simp [generatePOST, h], by simp [generatePOST, h],
      fun ht => by simp [generatePOST, h, ht], by simp [generatePOST, h],
      by simp [generatePOST, h], by simp [generatePOST, h]⟩

/-- Witness for C5 at a concrete approved entry whose external trigger
fails. -/
theorem c5_commit_before_trigger_witness :
    (generatePOST (sampleEntry 1 .approved none) 3 true false).2.1.status = .generating
    ∧ (generatePOST (sampleEntry 1 .approved none) 3 true false).1 = .ok "kw1"
    ∧ (generatePOST (sampleEntry 1 .approved none) 3 true false).2.2
        = [.statusWrite .generating 3, .externalTrigger "kw1" false] := by
  have h := c5_commit_before_trigger (sampleEntry 1 .approved none) 3 true false
    (Or.inr (Or.inl rfl))
  exact ⟨h.1, h.2.2.2.2.1, by simpa using h.2.2.2.1 rfl⟩

/-! ## Claim C6 -/

/-- Claim C6, counterexample.  The claim says a non-null difficulty of
0 is labelled "Easy" (`d < 30`), but the JS falsy guard
`if (!difficulty)` catches 0, so `label(0) = "Unknown"`. -/
theorem c6_counterexample :
    getDifficultyLabel (some 0) = "Unknown" ∧ getDifficultyLabel (some 0) ≠ "Easy" := by
  constructor
  · unfold getDifficultyLabel jsTruthyQ
    norm_num
  · unfold getDifficultyLabel jsTruthyQ
    norm_num
    decide

/-- Claim C6, amended.  `label(null) = "Unknown"` and `label(0) =
"Unknown"` (zero is falsy); for every non-null, non-zero difficulty
`d`: `d < 30 → "Easy"`, `30 ≤ d < 50 → "Medium"`, `50 ≤ d < 70 →
"Hard"`, and `70 ≤ d → "Very Hard"`. -/
theorem c6_difficulty_label (d : ℚ) (hd : d ≠ 0) :
    getDifficultyLabel none = "Unknown"
    ∧ getDifficultyLabel (some 0) = "Unknown"
    ∧ (d < 30 → getDifficultyLabel (some d) = "Easy")
    ∧ (30 ≤ d → d < 50 → getDifficultyLabel (some d) = "Medium")
    ∧ (50 ≤ d → d < 70 → getDifficultyLabel (some d) = "Hard")
    ∧ (70 ≤ d → getDifficultyLabel (some d) = "Very Hard") := by
  have ht : jsTruthyQ (some d) = true := by simp [jsTruthyQ, hd]
  refine ⟨by simp [getDifficultyLabel, jsTruthyQ],
    by simp [getDifficultyLabel, jsTruthyQ], ?_, ?_, ?_, ?_⟩
  · intro h1
    simp [getDifficultyLabel, ht, h1]
  · intro h1 h2
    rw [getDifficultyLabel, ht]
    rw [if_neg (by norm_num), if_neg (by simp; linarith), if_pos (by simpa using h2)]
  · intro h1 h2
    rw [getDifficultyLabel, ht]
    rw [if_neg (by norm_num), if_neg (by simp; linarith), if_neg (by simp; linarith),
        if_pos (by simpa using h2)]
  · intro h1
    rw [getDifficultyLabel, ht]
    rw [if_neg (by norm_num), if_neg (by simp; linarith), if_neg (by simp; linarith),
        if_neg (by simp; linarith)]

/-- Witness for C6's amended theorem at concrete difficulties. -/
theorem c6_difficulty_label_witness :
    getDifficultyLabel (some 29) = "Easy" ∧ getDifficultyLabel (some 55) = "Hard" := by
  have h1 := c6_difficulty_label 29 (by norm_num)
  have h2 := c6_difficulty_label 55 (by norm_num)
  exact ⟨h1.2.2.1 (by norm_num), h2.2.2.2.2.1 (by norm_num) (by norm_num)⟩

/-! ## Claim C7 -/

/-- Claim C7: for an entry in `{suggested, approved}` and a non-empty
reason, reject sets `status = rejected`, clears
`approved_at`/`approved_by` and stores the reason; a subsequent approve
restores `status = approved` with fresh `approved_at`/`approved_by`
and leaves the stored `decline_reason` untouched; and no transition
(approve, reschedule, schedule, dispatch, bulk-approve, or reject with
no reason given) ever clears `decline_reason` automatically. -/
theorem c7_reject_approve_round_trip (e : Entry) (r : String) (hr : r ≠ "")
    (h : e.status = .suggested ∨ e.status = .approved)
    (approver : String) (now : Int) :
    (rejectRow e.id (some r) e).status = .rejected
    ∧ (rejectRow e.id (some r) e).approved_at = none
    ∧ (rejectRow e.id (some r) e).approved_by = none
    ∧ (rejectRow e.id (some r) e).decline_reason = some r
    ∧ (approveRow e.id approver now (rejectRow e.id (some r) e)).status = .approved
    ∧ (approveRow e.id approver now (rejectRow e.id (some r) e)).approved_at = some now
    ∧ (approveRow e.id approver now (rejectRow e.id (some r) e)).approved_by = some approver
    ∧ (approveRow e.id approver now (rejectRow e.id (some r) e)).decline_reason = some r
    ∧ (∀ (e2 : Entry) (i : Nat) (a : String) (n : Int),
        (approveRow i a n e2).decline_reason = e2.decline_reason)
    ∧ (∀ (e2 : Entry) (i : Nat) (d : Int),
        (rescheduleRow i d e2).decline_reason = e2.decline_reason)
    ∧ (∀ (e2 : Entry) (i : Nat) (d : Int),
        (scheduleRow i d e2).decline_reason = e2.decline_reason)
    ∧ (∀ (e2 : Entry) (i : Nat) (n : Int),
        (dispatchRow i n e2).decline_reason = e2.decline_reason)
    ∧ (∀ (e2 : Entry) (ids : List Nat) (a : String) (n : Int),
        (bulkApproveRow ids a n e2).decline_reason = e2.decline_reason)
    ∧ (∀ (e2 : Entry) (i : Nat),
        (rejectRow i none e2).decline_reason = e2.decline_reason) := by
  have hrej : rejectRow e.id (some r) e
      = { e with status := .rejected, approved_at := none, approved_by := none,
                 decline_reason := some r } := by
    rw [rejectRow, if_pos ⟨rfl, h⟩]
    simp [jsTruthyStr, hr]
  have happ : approveRow e.id approver now (rejectRow e.id (some r) e)
      = { e with status := .approved, approved_at := some now, approved_by := some approver,
                 decline_reason := some r } := by
    rw [hrej, approveRow, if_pos ⟨rfl, Or.inr rfl⟩]
  refine ⟨by rw [hrej], by rw [hrej], by rw [hrej], by rw [hrej],
    by rw [happ], by rw [happ], by rw [happ], by rw [happ], ?_, ?_, ?_, ?_, ?_, ?_⟩
  · intro e2 i a n
    rw [approveRow]
    split <;> rfl
  · intro e2 i d
    rw [rescheduleRow]
    split <;> rfl
  · intro e2 i d
    rw [scheduleRow]
    split <;> rfl
  · intro e2 i n
    rw [dispatchRow]
    split <;> rfl
  · intro e2 ids a n
    rw [bulkApproveRow]
    split <;> rfl
  · intro e2 i
    rw [rejectRow]
    split <;> simp [jsTruthyStr]

/-- Witness for C7 at a concrete approved entry. -/
theorem c7_reject_approve_round_trip_witness :
    (rejectRow 1 (some "too hard") (sampleEntry 1 .approved none)).status = .rejected
    ∧ (rejectRow 1 (some "too hard") (sampleEntry 1 .approved none)).decline_reason
        = some "too hard"
    ∧ (approveRow 1 "op" 9 (rejectRow 1 (some "too hard") (sampleEntry 1 .approved none))).status
        = .approved
    ∧ (approveRow 1 "op" 9
        (rejectRow 1 (some "too hard") (sampleEntry 1 .approved none))).decline_reason
        = some "too hard" := by
  have h := c7_reject_approve_round_trip (sampleEntry 1 .approved none) "too hard" (by decide)
    (Or.inr rfl) "op" 9
  exact ⟨h.1, h.2.2.2.1, h.2.2.2.2.1, h.2.2.2.2.2.2.2.1⟩

/-! ## Claim C8 -/

/-- Claim C8, counterexample.  The claim says the stats operation
returns one count per lifecycle state (all eight).  The handler issues
count queries only for `suggested`, `approved`, `scheduled` and
`published`; `rejected`, `generating`, `in_progress` and `failed` have
no count. -/
theorem c8_counterexample :
    Status.rejected ∉ statsCountedStatuses
    ∧ Status.generating ∉ statsCountedStatuses
    ∧ Status.in_progress ∉ statsCountedStatuses
    ∧ Status.failed ∉ statsCountedStatuses
    ∧ statsCountedStatuses.length = 4 := by decide

/-- Claim C8, amended.  The stats operation returns exactly four
status counts — `suggested`, `approved`, `scheduled`, `published` —
each equal to the number of entries of that status, plus today's
scheduled entry (the first stored entry whose status is `scheduled`
and whose planned date is today) when one exists. -/
theorem c8_stats_counts (store : List Entry) (today : Int) :
    (getStats store today).suggested = countStatus store .suggested
    ∧ (getStats store today).approved = countStatus store .approved
    ∧ (getStats store today).scheduled = countStatus store .scheduled
    ∧ (getStats store today).published = countStatus store .published
    ∧ (∀ s : Status, s ∈ statsCountedStatuses ↔
        (s = .suggested ∨ s = .approved ∨ s = .scheduled ∨ s = .published))
    ∧ (getStats store today).todayScheduled
        = (store.filter
            (fun e => decide (e.status = .scheduled ∧ e.planned_date = some today))).head? := by
  refine ⟨rfl, rfl, rfl, rfl, ?_, ?_⟩
  · intro s
    cases s <;> simp [statsCountedStatuses]
  · show ((store.filter _).take 1).head? = _
    rw [take_one_head]
    congr 1
    apply List.filter_congr
    intro e _
    cases hpd : e.planned_date with
    | none => simp [sqlGe, sqlLe, hpd]
    | some d0 =>
      by_cases hst : e.status = .scheduled
      · by_cases heq : d0 = today
        · subst heq
          simp [sqlGe, sqlLe, hpd, hst]
        · have hne : ¬(today ≤ d0) ∨ ¬(d0 ≤ today) := by omega
          rcases hne with h2 | h2 <;> simp [sqlGe, sqlLe, hpd, hst, heq, h2]
      · simp [sqlGe, sqlLe, hpd, hst]

/-! ## Claim C9 -/

/-- Claim C9: the create operation does not force new entries into
`suggested` — a body carrying a non-empty status string is inserted
with exactly that status (any string, e.g. "published"), and
`suggested` is only the default used when the status field is absent
or falsy. -/
theorem c9_create_status (body : CreateBody) (s : String) (hs : body.status = some s)
    (hne : s ≠ "") :
    (buildInsertFields body).status = s
    ∧ (∀ b : CreateBody, b.status = none → (buildInsertFields b).status = "suggested")
    ∧ (∀ b : CreateBody, b.status = some "" → (buildInsertFields b).status = "suggested")
    ∧ (buildInsertFields (sampleCreateBody (some "published"))).status = "published" := by
  refine ⟨?_, ?_, ?_, by decide⟩
  · simp [buildInsertFields, strOr, hs, hne]
  · intro b hb
    simp [buildInsertFields, strOr, hb]
  · intro b hb
    simp [buildInsertFields, strOr, hb]

/-- Witness for C9 at concrete create bodies. -/
theorem c9_create_status_witness :
    (buildInsertFields (sampleCreateBody (some "published"))).status = "published"
    ∧ (buildInsertFields (sampleCreateBody none)).status = "suggested" :=
  ⟨(c9_create_status (sampleCreateBody (some "published")) "published" rfl (by decide)).1,
   (c9_create_status (sampleCreateBody (some "published")) "published" rfl (by decide)).2.1
     (sampleCreateBody none) rfl⟩

/-! ## Claim C10 -/

/-- Claim C10: deleting an id with no matching entry reports success,
not NotFound — the lookup failure is discarded, the filtered delete
matches zero rows (the store is unchanged), and the handler returns
"Calendar entry deleted successfully"; the handler never produces the
NotFound response, and the published-entry guard fires only when the
lookup returns an entry. -/
theorem c10_delete_missing_id (store : List Entry) (i : Nat) (h : ∀ e ∈ store, e.id ≠ i) :
    (deleteEntry store i).1 = .success "Calendar entry deleted successfully"
    ∧ (deleteEntry store i).2 = store
    ∧ (∀ (s : List Entry) (j : Nat), (deleteEntry s j).1 ≠ .notFound)
    ∧ (∀ (s : List Entry) (j : Nat) (e : Entry),
        (s.filter (fun e2 => decide (e2.id = j))).head? = some e → e.status = .published →
        (deleteEntry s j).1 = .immutable) := by
  have hfil : store.filter (fun e => decide (e.id = i)) = [] := by
    simp only [List.filter_eq_nil_iff, decide_eq_true_eq]
    exact h
  have hkeep : store.filter (fun e => decide (¬ e.id = i)) = store := by
    rw [List.filter_eq_self]
    intro a ha
    simp [h a ha]
  refine ⟨?_, ?_, ?_, ?_⟩
  · rw [deleteEntry, hfil]
    rfl
  · rw [deleteEntry, hfil]
    simpa using hkeep
  · intro s j
    rw [deleteEntry]
    cases (s.filter (fun e2 => decide (e2.id = j))).head? with
    | none => simp
    | some e2 =>
      by_cases hp : e2.status = .published
      · simp [hp]
      · simp [hp]
  · intro s j e2 hhead hp
    rw [deleteEntry, hhead]
    simp [hp]

/-- Witness for C10: deleting id 1 from a store holding only id 2. -/
theorem c10_delete_missing_id_witness :
    (deleteEntry [sampleEntry 2 .published none] 1).1
        = .success "Calendar entry deleted successfully"
    ∧ (deleteEntry [sampleEntry 2 .published none] 1).2 = [sampleEntry 2 .published none] := by
  have h := c10_delete_missing_id [sampleEntry 2 .published none] 1 (by decide)
  exact ⟨h.1, h.2.1⟩

end RevOps
